import Mathlib

/-!
Verification of the molecule-specification validation schema
(`pymatgen/io/openmm/schema.py`).

The source is a pydantic-v1 `BaseModel` (`InputMoleculeSpec`) together with a
`Geometry` sub-model and two plain dataclasses (`MoleculeSpec`, `SetContents`).
We shallowly embed the pydantic validation run: fields are processed in
declaration order; a validator attached to a field runs only when the field is
supplied in the input (unless declared `always=True`); `values` holds the
already-validated earlier fields (a field that failed validation is absent from
`values`); errors of kind ValueError/TypeError/AssertionError raised by a
validator are collected per field and reported together in one ValidationError
at the end, while any other exception (AttributeError, KeyError, IndexError)
escapes uncaught.

External toolkit calls (SMILES parsing, xyz-file parsing) are abstracted as a
`Chem` record of partial parsing functions, as the spec directs (§6).
-/

/-- A 3D atomic position (coordinates are never inspected by the schema,
only position counts are). -/
abbrev Pos : Type := ℚ × ℚ × ℚ

/-- A resolved molecular geometry: the ordered sequence of atomic positions
(the `xyz` payload of a validated `Geometry`). -/
abbrev Molecule : Type := List Pos

/-- An unresolved geometry source (inline structure, file path or raw text),
rendered as an identifier to be resolved by the external toolkit. -/
abbrev GeomSource : Type := String

/-- The external chemistry collaborators of §6: `parseSmiles` returns the atom
count of the molecule a SMILES string parses to (`none` = unparsable), standing
for `openff.toolkit.Molecule.from_smiles`; `parseGeometry` resolves one
geometry source into an ordered position sequence (`none` = unparsable),
standing for `pymatgen.io.openmm.utils.xyz_to_molecule`. -/
structure Chem where
  parseSmiles : String → Option Nat
  parseGeometry : GeomSource → Option Molecule

/-- The state of one field of the raw input mapping: the key can be absent,
present with the JSON/Python value `None`, or present with a value.  Pydantic
distinguishes all three (validators without `always=True` are skipped on
`omitted` but do run on `null`). -/
inductive RawField (α : Type) : Type where
  | omitted : RawField α
  | null : RawField α
  | val : α → RawField α
deriving DecidableEq, Repr

/-- The raw (pre-validation) molecule specification: one `RawField` per field
of `InputMoleculeSpec`, in source declaration order. -/
structure RawMoleculeSpec where
  smile : RawField String
  count : RawField Int
  name : RawField String
  charge_scaling : RawField ℚ
  force_field : RawField String
  geometries : RawField (List GeomSource)
  partial_charges : RawField (List ℚ)
  partial_charge_label : RawField String
  max_conformers : RawField Int
deriving DecidableEq, Repr

/-- One per-field validation error, as collected by pydantic into the final
ValidationError.  Constructors are named after the spec's error taxonomy (§7)
where one applies; `missingField` and `typeError` are the framework-generated
errors (required field absent; `None` where not allowed / TypeError raised
inside a validator). -/
inductive FieldError : Type where
  | missingField : String → FieldError
  | typeError : String → String → FieldError
  | invalidIdentity : String → FieldError
  | invalidGeometry : String → FieldError
  | geometryMismatch : String → FieldError
  | missingGeometry : String → FieldError
  | lengthMismatch : String → FieldError
  | inconsistentLabel : String → FieldError
  | rangeError : String → FieldError
  | invalidCount : String → FieldError
deriving DecidableEq, Repr

/-- What a validation run can raise: one ValidationError carrying the
per-field errors in field-declaration order, or an exception class that
pydantic does not catch (AttributeError/KeyError/IndexError) escaping
uncaught. -/
inductive PyError : Type where
  | validation : List FieldError → PyError
  | uncaught : String → PyError
deriving DecidableEq, Repr

/-- The validated `InputMoleculeSpec` model instance. -/
structure InputMoleculeSpec where
  smile : String
  count : Int
  name : String
  charge_scaling : Option ℚ
  force_field : Option String
  geometries : Option (List Molecule)
  partial_charges : Option (List ℚ)
  partial_charge_label : Option String
  max_conformers : Int
deriving DecidableEq, Repr

deriving instance DecidableEq for Except

/-- Python's `str.lower()` on ASCII keywords: lowercase every character. -/
def pyLower (s : String) : String := ⟨s.data.map Char.toLower⟩

/-- The error list a field contributes to the final ValidationError. -/
def errOf {α : Type} : Except FieldError α → List FieldError
  | .error e => [e]
  | .ok _ => []

/-- Extract a validated value, with a dummy default for the error case (only
ever used on the success path, where every field validated). -/
def getOr {α : Type} (d : α) : Except FieldError α → α
  | .ok a => a
  | .error _ => d

/-- The entry of pydantic's `values` dict for an optional field: present
(and possibly `None`) when the field validated, absent (`values.get` returns
`None`) when it errored. -/
def fieldValues {α : Type} : Except FieldError (Option α) → Option α
  | .ok v => v
  | .error _ => none

/-- The fixed message of the geometry atom-count mismatch error (source lines
80–83): it does not mention which geometry entries mismatch. -/
def geomMismatchMsg : String :=
  "All geometries must have the same number of atoms as the molecule"
    ++ " defined in the SMILES string."

/-- The message of the missing-geometry error (source line 93). -/
def missingGeomMsg : String := "geometries must be set if partial_charges is set"

/-- The message of the charge-list length mismatch error (source line 96). -/
def lengthMismatchMsg : String := "partial_charges must be the same length as all geometries"

/-- The message of the label-without-charges error (source line 106). -/
def inconsistentLabelMsg : String := "partial_charges must be set if partial_charge_label is set"

/-- Field `smile : str` with validator `smile_is_valid`: required, must parse
via the SMILES toolkit, kept verbatim on success. -/
def validateSmile (chem : Chem) : RawField String → Except FieldError String
  | .omitted => .error (.missingField "smile")
  | .null => .error (.typeError "smile" "none is not an allowed value")
  | .val s =>
    match chem.parseSmiles s with
    | none => .error (.invalidIdentity ("Invalid SMILES string: " ++ s))
    | some _ => .ok s

/-- Field `count : int`: required, no further validation (in particular no
positivity check). -/
def validateCount : RawField Int → Except FieldError Int
  | .omitted => .error (.missingField "count")
  | .null => .error (.typeError "count" "none is not an allowed value")
  | .val n => .ok n

/-- Field `name : Optional[str]` with validator `set_name` (`always=True`):
when the name is `None` the validator reads `values["smile"]`, which raises an
uncaught KeyError when the smile field failed validation (outer `.error` =
uncaught exception). -/
def validateName (smileV : Except FieldError String) :
    RawField String → Except String (Except FieldError String)
  | .val s => .ok (.ok s)
  | _ =>
    match smileV with
    | .ok s => .ok (.ok s)
    | .error _ => .error "KeyError: smile"

/-- Field `charge_scaling : Optional[confloat(ge=0.1, le=10)] = 1.0`:
omitted defaults to `1.0`, explicit `None` is allowed by `Optional`, and a
supplied number must lie in `[0.1, 10]`. -/
def validateChargeScaling : RawField ℚ → Except FieldError (Option ℚ)
  | .omitted => .ok (some 1)
  | .null => .ok none
  | .val q =>
    if mkRat 1 10 ≤ q ∧ q ≤ 10 then .ok (some q)
    else .error (.rangeError "charge_scaling")

/-- Field `force_field : Optional[constr(to_lower=True)]` with pre-validator
`lower_case_ff`: the validator runs whenever the field is supplied and calls
`force_field.lower()` unconditionally, so an explicit `None` raises an
uncaught AttributeError; a supplied string is lowercased and never rejected. -/
def validateForceField :
    RawField String → Except String (Except FieldError (Option String))
  | .omitted => .ok (.ok none)
  | .null => .error "AttributeError: NoneType object has no attribute lower"
  | .val s => .ok (.ok (some (pyLower s)))

/-- Resolution of a list of geometry sources, as done by the
`[Geometry(xyz=xyz) for xyz in geometries]` comprehension: each source goes
through `Geometry.xyz_is_valid` (i.e. `xyz_to_molecule`); the first
unparsable source aborts the comprehension with that source. -/
def resolveAll (chem : Chem) : List GeomSource → Except GeomSource (List Molecule)
  | [] => .ok []
  | s :: rest =>
    match chem.parseGeometry s with
    | none => .error s
    | some m => (resolveAll chem rest).map (fun ms => m :: ms)

/-- Field `geometries : Optional[List[Geometry]]` with pre-validator
`convert_xyz_to_geometry`: skipped when omitted; a supplied `None` is passed
through; a supplied list is resolved entry by entry (an unparsable entry is
the Geometry model ValueError), then every resolved geometry's atom count is
compared with the atom count of `values["smile"]` (an uncaught KeyError when
the smile failed), failing with the fixed mismatch message otherwise. -/
def validateGeometries (chem : Chem) (smileV : Except FieldError String) :
    RawField (List GeomSource) →
      Except String (Except FieldError (Option (List Molecule)))
  | .omitted => .ok (.ok none)
  | .null => .ok (.ok none)
  | .val srcs =>
    match resolveAll chem srcs with
    | .error bad =>
      .ok (.error (.invalidGeometry ("Invalid xyz file or molecule: " ++ bad)))
    | .ok mols =>
      match smileV with
      | .error _ => .error "KeyError: smile"
      | .ok s =>
        let n := (chem.parseSmiles s).getD 0
        if mols.all (fun m => m.length = n) then .ok (.ok (some mols))
        else .ok (.error (.geometryMismatch geomMismatchMsg))

/-- Field `partial_charges : Optional[List[float]]` with pre-validator
`check_geometry_is_set`: skipped when omitted; a supplied `None` skips the
`if` body and hits the trailing `return list(partial_charges)`, a TypeError
(caught by pydantic as a generic field error); a supplied list requires
`values.get("geometries")` to be a non-`None` list (else the missing-geometry
ValueError), indexes its first element (an uncaught IndexError on an empty
list) and compares lengths. -/
def validatePartialCharges (geomVals : Option (List Molecule)) :
    RawField (List ℚ) → Except String (Except FieldError (Option (List ℚ)))
  | .omitted => .ok (.ok none)
  | .null => .ok (.error (.typeError "partial_charges" "NoneType object is not iterable"))
  | .val cs =>
    match geomVals with
    | none => .ok (.error (.missingGeometry missingGeomMsg))
    | some [] => .error "IndexError: list index out of range"
    | some (g0 :: _) =>
      if cs.length = g0.length then .ok (.ok (some cs))
      else .ok (.error (.lengthMismatch lengthMismatchMsg))

/-- Field `partial_charge_label : Optional[str]` with pre-validator
`check_partial_charges_are_set` (no `always=True`, so it is skipped when the
field is omitted and the label then stays `None`): a supplied label requires
`values.get("partial_charges")` to be set; a supplied `None` becomes
`"custom"` exactly when partial charges validated to a set value. -/
def validateLabel (pcVals : Option (List ℚ)) :
    RawField String → Except FieldError (Option String)
  | .omitted => .ok none
  | .null =>
    match pcVals with
    | none => .ok none
    | some _ => .ok (some "custom")
  | .val lbl =>
    match pcVals with
    | none => .error (.inconsistentLabel inconsistentLabelMsg)
    | some _ => .ok (some lbl)

/-- Field `max_conformers : PositiveInt = 1`: omitted defaults to 1, `None`
is not allowed, and a supplied integer must be strictly positive. -/
def validateMaxConformers : RawField Int → Except FieldError Int
  | .omitted => .ok 1
  | .null => .error (.typeError "max_conformers" "none is not an allowed value")
  | .val n => if 0 < n then .ok n else .error (.invalidCount "max_conformers")

/-- The pydantic validation run of `InputMoleculeSpec`: fields are processed
in declaration order, each contributing its validated value to `values` or an
error to the collected list; an uncaught exception inside a validator aborts
the whole run; otherwise the run fails with the collected errors, or succeeds
building the model instance when there are none. -/
def validateMol (chem : Chem) (r : RawMoleculeSpec) :
    Except PyError InputMoleculeSpec :=
  let smileV := validateSmile chem r.smile
  let countV := validateCount r.count
  match validateName smileV r.name with
  | .error msg => .error (.uncaught msg)
  | .ok nameV =>
    let csV := validateChargeScaling r.charge_scaling
    match validateForceField r.force_field with
    | .error msg => .error (.uncaught msg)
    | .ok ffV =>
      match validateGeometries chem smileV r.geometries with
      | .error msg => .error (.uncaught msg)
      | .ok geomV =>
        match validatePartialCharges (fieldValues geomV) r.partial_charges with
        | .error msg => .error (.uncaught msg)
        | .ok pcV =>
          let pclV := validateLabel (fieldValues pcV) r.partial_charge_label
          let mcV := validateMaxConformers r.max_conformers
          let errs := errOf smileV ++ errOf countV ++ errOf nameV ++ errOf csV
            ++ errOf ffV ++ errOf geomV ++ errOf pcV ++ errOf pclV ++ errOf mcV
          if errs.isEmpty then
            .ok { smile := getOr "" smileV
                  count := getOr 0 countV
                  name := getOr "" nameV
                  charge_scaling := getOr none csV
                  force_field := getOr none ffV
                  geometries := getOr none geomV
                  partial_charges := getOr none pcV
                  partial_charge_label := getOr none pclV
                  max_conformers := getOr 0 mcV }
          else .error (.validation errs)

/-- The `MoleculeSpec` dataclass: one canonical validated molecule record
(name, count, smile, force field, formal charge, charge method).  The external
`MoleculeGraph` field is replaced, as the spec directs (§4.3, "with known
per-atom data"), by the per-molecule atom-type and residue-name identifier
blocks that the aggregator flattens; the population count is the spec's
positive integer.  Modelled from the spec: the aggregation inputs of §4.3
(the aggregation code itself is not under src/, only the `SetContents`
dataclass declaration is). -/
structure MoleculeSpec where
  name : String
  count : Nat
  smile : String
  force_field : String
  formal_charge : Int
  charge_method : String
  atomTypes : List Int
  atomResnames : List Int
deriving DecidableEq, Repr

/-- The `SetContents` dataclass: the simulation-wide flattened structure. -/
structure SetContents where
  molecule_specs : List MoleculeSpec
  force_fields : List String
  partial_charge_methods : List String
  atom_types : List Int
  atom_resnames : List Int
deriving DecidableEq, Repr

/-- Modelled from the spec: the Set Contents Aggregator of §4.3 (not under
src/) — for each specification, in input order, append `count` contiguous
repetitions of the molecule's per-atom identifier block to the flat arrays,
and one force-field keyword and one charge-method label per specification. -/
def aggregate (specs : List MoleculeSpec) : SetContents where
  molecule_specs := specs
  force_fields := specs.map (fun s => s.force_field)
  partial_charge_methods := specs.map (fun s => s.charge_method)
  atom_types := (specs.map (fun s => (List.replicate s.count s.atomTypes).flatten)).flatten
  atom_resnames := (specs.map (fun s => (List.replicate s.count s.atomResnames).flatten)).flatten

/-- Modelled from the spec: the error taxonomy of §7 — which field errors are
one of the documented validation errors (`InvalidIdentityError`,
`InvalidGeometryError`, `GeometryMismatchError`, `MissingGeometryError`,
`LengthMismatchError`, `InconsistentLabelError`, `RangeError`,
`InvalidCountError`).  Framework-generated errors (required field missing,
`None` not allowed, TypeError inside a validator) are not documented. -/
def documentedKind : FieldError → Bool
  | .invalidIdentity _ => true
  | .invalidGeometry _ => true
  | .geometryMismatch _ => true
  | .missingGeometry _ => true
  | .lengthMismatch _ => true
  | .inconsistentLabel _ => true
  | .rangeError _ => true
  | .invalidCount _ => true
  | .missingField _ => false
  | .typeError _ _ => false

/-- A one-position resolved geometry. -/
def mol1 : Molecule := [(0, 0, 0)]

/-- A two-position resolved geometry. -/
def mol2 : Molecule := [(0, 0, 0), (1, 0, 0)]

/-- A three-position resolved geometry. -/
def mol3 : Molecule := [(0, 0, 0), (1, 0, 0), (2, 0, 0)]

/-- A concrete instance of the external chemistry collaborators, for running
the validator on closed inputs: SMILES `"O"` (water) parses to 3 atoms and
`"N"` (ammonia) to 4; sources `"g1"`, `"g2"`, `"g3"` resolve to geometries
with 1, 2 and 3 positions. -/
def chemEx : Chem where
  parseSmiles := fun s => if s = "O" then some 3 else if s = "N" then some 4 else none
  parseGeometry := fun src =>
    if src = "g1" then some mol1
    else if src = "g2" then some mol2
    else if src = "g3" then some mol3
    else none

/-- Canonical specification A of the spec's aggregation example: population
count 2, three atoms per molecule. -/
def specA : MoleculeSpec where
  name := "A"
  count := 2
  smile := "A"
  force_field := "sage"
  formal_charge := 0
  charge_method := "am1bcc"
  atomTypes := [1, 2, 3]
  atomResnames := [11, 11, 11]

/-- Canonical specification B of the spec's aggregation example: population
count 3, one atom per molecule. -/
def specB : MoleculeSpec where
  name := "B"
  count := 3
  smile := "B"
  force_field := "tip3p"
  formal_charge := 0
  charge_method := "custom"
  atomTypes := [7]
  atomResnames := [22]

/-- A baseline raw specification: identity `"O"`, count 2, every optional
field omitted. -/
def rawBase : RawMoleculeSpec where
  smile := .val "O"
  count := .val 2
  name := .omitted
  charge_scaling := .omitted
  force_field := .omitted
  geometries := .omitted
  partial_charges := .omitted
  partial_charge_label := .omitted
  max_conformers := .omitted

/-- C1 (counterexample): a raw specification with partial charges present and
the `partial_charge_label` key omitted validates successfully with the label
left unset, not defaulted to `"custom"` — the pre-validator lacks
`always=True`, so it is skipped for an omitted field. -/
theorem set_label_omitted_stays_unset :
    validateMol chemEx
        { rawBase with geometries := .val ["g3"], partial_charges := .val [0, 0, 0] } =
      .ok ⟨"O", 2, "O", some 1, none, some [mol3], some [0, 0, 0], none, 1⟩ ∧
    (none : Option String) ≠ some "custom" := by decide

/-- C1 (amended): when partial charges are present and valid, the
charge-method label defaults to `"custom"` only when `partial_charge_label`
is explicitly supplied as null; when the key is omitted the label stays
unset. -/
theorem set_label_custom_on_explicit_null (chem : Chem) (r : RawMoleculeSpec)
    (s : String) (n : Nat) (c : Int) (srcs : List GeomSource)
    (g0 : Molecule) (rest : List Molecule) (cs : List ℚ)
    (hs : r.smile = .val s) (hn : chem.parseSmiles s = some n)
    (hc : r.count = .val c) (hname : r.name = .omitted)
    (hsc : r.charge_scaling = .omitted) (hff : r.force_field = .omitted)
    (hg : r.geometries = .val srcs)
    (hres : resolveAll chem srcs = .ok (g0 :: rest))
    (hall : (g0 :: rest).all (fun m => m.length = n) = true)
    (hpc : r.partial_charges = .val cs) (hlen : cs.length = g0.length)
    (hmc : r.max_conformers = .omitted) :
    (r.partial_charge_label = .null →
      validateMol chem r =
        .ok ⟨s, c, s, some 1, none, some (g0 :: rest), some cs, some "custom", 1⟩) ∧
    (r.partial_charge_label = .omitted →
      validateMol chem r =
        .ok ⟨s, c, s, some 1, none, some (g0 :: rest), some cs, none, 1⟩) := by
  constructor <;> intro hlbl <;>
    simp [validateMol, validateSmile, validateCount, validateName,
      validateChargeScaling, validateForceField, validateGeometries,
      validatePartialCharges, validateLabel, validateMaxConformers,
      fieldValues, errOf, getOr, hs, hn, hc, hname, hsc, hff, hg, hres, hall,
      hpc, hlen, hmc, hlbl]

/-- C1 (witness): the amended claim at a concrete input — identity `"O"`,
one matching geometry, three charges, label explicitly null. -/
theorem set_label_custom_on_explicit_null_w :
    validateMol chemEx
        { rawBase with geometries := .val ["g3"], partial_charges := .val [0, 0, 0],
                       partial_charge_label := .null } =
      .ok ⟨"O", 2, "O", some 1, none, some [mol3], some [0, 0, 0], some "custom", 1⟩ :=
  (set_label_custom_on_explicit_null chemEx _ "O" 3 2 ["g3"] mol3 [] [0, 0, 0]
    rfl rfl rfl rfl rfl rfl rfl (by decide) (by decide) rfl (by decide) rfl).1 rfl

/-- C2 (counterexample): a raw specification with population count 0 — not a
strictly positive integer — validates successfully: the `count` field is a
plain `int` with no positivity validator. -/
theorem count_zero_accepted :
    validateMol chemEx { rawBase with count := .val 0 } =
      .ok ⟨"O", 0, "O", some 1, none, none, none, none, 1⟩ := by decide

/-- C2 (amended): validation fails with the invalid-count error whenever the
maximum-conformer count is supplied non-positive (`PositiveInt`); the
population count is not checked for positivity. -/
theorem max_conformers_must_be_positive (chem : Chem) (r : RawMoleculeSpec)
    (s : String) (n : Nat) (c k : Int)
    (hs : r.smile = .val s) (hn : chem.parseSmiles s = some n)
    (hc : r.count = .val c) (hname : r.name = .omitted)
    (hsc : r.charge_scaling = .omitted) (hff : r.force_field = .omitted)
    (hg : r.geometries = .omitted) (hpc : r.partial_charges = .omitted)
    (hlbl : r.partial_charge_label = .omitted)
    (hmc : r.max_conformers = .val k) (hk : k ≤ 0) :
    validateMol chem r = .error (.validation [.invalidCount "max_conformers"]) := by
  simp [validateMol, validateSmile, validateCount, validateName,
    validateChargeScaling, validateForceField, validateGeometries,
    validatePartialCharges, validateLabel, validateMaxConformers,
    fieldValues, errOf, getOr, hs, hn, hc, hname, hsc, hff, hg, hpc, hlbl, hmc,
    show ¬(0 : ℤ) < k from not_lt.mpr hk]

/-- C2 (witness): the amended claim at a concrete input — `max_conformers`
supplied as 0 is rejected with the invalid-count error. -/
theorem max_conformers_must_be_positive_w :
    validateMol chemEx { rawBase with max_conformers := .val 0 } =
      .error (.validation [.invalidCount "max_conformers"]) :=
  max_conformers_must_be_positive chemEx _ "O" 3 2 0
    rfl rfl rfl rfl rfl rfl rfl rfl rfl rfl (by decide)

/-- C3 (counterexample): a raw specification with both an out-of-range
charge-scaling factor (0.05) and a geometry whose atom count mismatches the
identity reports TWO errors in one ValidationError, and the first is the
range error, not the geometry error: `charge_scaling` is declared before
`geometries` in the source, and pydantic collects all field errors rather
than stopping at the first. -/
theorem multiple_violations_both_reported :
    validateMol chemEx
        { rawBase with charge_scaling := .val (mkRat 1 20), geometries := .val ["g2"] } =
      .error (.validation
        [.rangeError "charge_scaling", .geometryMismatch geomMismatchMsg]) := by decide

/-- C3 (amended): a raw specification that violates several validation rules
raises one ValidationError aggregating every violated step's error, in the
source's field-declaration order (identity, count, name, charge-scaling,
force field, geometries, partial charges, label, max conformers); in
particular, with both an out-of-range charge-scaling factor and a mismatching
geometry, the range error is reported first and the geometry error second. -/
theorem range_error_precedes_geometry_error (chem : Chem) (r : RawMoleculeSpec)
    (s : String) (n : Nat) (c : Int) (q : ℚ) (srcs : List GeomSource)
    (mols : List Molecule)
    (hs : r.smile = .val s) (hn : chem.parseSmiles s = some n)
    (hc : r.count = .val c) (hname : r.name = .omitted)
    (hsc : r.charge_scaling = .val q) (hq : ¬(mkRat 1 10 ≤ q ∧ q ≤ 10))
    (hff : r.force_field = .omitted)
    (hg : r.geometries = .val srcs) (hres : resolveAll chem srcs = .ok mols)
    (hall : mols.all (fun m => m.length = n) = false)
    (hpc : r.partial_charges = .omitted)
    (hlbl : r.partial_charge_label = .omitted)
    (hmc : r.max_conformers = .omitted) :
    validateMol chem r = .error (.validation
      [.rangeError "charge_scaling", .geometryMismatch geomMismatchMsg]) := by
  simp [validateMol, validateSmile, validateCount, validateName,
    validateChargeScaling, validateForceField, validateGeometries,
    validatePartialCharges, validateLabel, validateMaxConformers,
    fieldValues, errOf, getOr, hs, hn, hc, hname, hsc, hq, hff, hg, hres, hall,
    hpc, hlbl, hmc]

/-- C3 (witness): the amended claim at a concrete input — charge scaling
0.05 together with a 2-position geometry for the 3-atom identity `"O"`. -/
theorem range_error_precedes_geometry_error_w :
    validateMol chemEx
        { rawBase with charge_scaling := .val (mkRat 1 20), geometries := .val ["g2"] } =
      .error (.validation
        [.rangeError "charge_scaling", .geometryMismatch geomMismatchMsg]) :=
  range_error_precedes_geometry_error chemEx _ "O" 3 2 (mkRat 1 20) ["g2"] [mol2]
    rfl rfl rfl rfl rfl (by decide) rfl rfl (by decide) (by decide) rfl rfl rfl

/-- C4 (counterexample): the geometry-mismatch error does not name the
offending entries — two raw specifications whose offending geometry entries
are at different positions (entry 0 resolves to 2 positions in the first,
entry 1 in the second, against the 3-atom identity `"O"`) fail with literally
the same error value, whose message is a fixed string. -/
theorem geometry_mismatch_does_not_name_entries :
    validateMol chemEx { rawBase with geometries := .val ["g2", "g3"] } =
      .error (.validation [.geometryMismatch geomMismatchMsg]) ∧
    validateMol chemEx { rawBase with geometries := .val ["g3", "g2"] } =
      .error (.validation [.geometryMismatch geomMismatchMsg]) ∧
    (chemEx.parseGeometry "g2").map List.length = some 2 ∧
    (chemEx.parseGeometry "g3").map List.length = some 3 ∧
    (["g2", "g3"] : List GeomSource) ≠ ["g3", "g2"] := by decide

/-- C4 (amended): with the geometries list present and every entry resolved,
validation fails with the geometry-mismatch error (a fixed message that does
not identify the offending entries) when any resolved geometry's atom count
differs from the identity-derived atom count, and the step passes when every
geometry's atom count equals it. -/
theorem geometry_atom_count_check (chem : Chem) (r : RawMoleculeSpec)
    (s : String) (n : Nat) (c : Int) (srcs : List GeomSource)
    (mols : List Molecule)
    (hs : r.smile = .val s) (hn : chem.parseSmiles s = some n)
    (hc : r.count = .val c) (hname : r.name = .omitted)
    (hsc : r.charge_scaling = .omitted) (hff : r.force_field = .omitted)
    (hg : r.geometries = .val srcs) (hres : resolveAll chem srcs = .ok mols)
    (hpc : r.partial_charges = .omitted)
    (hlbl : r.partial_charge_label = .omitted)
    (hmc : r.max_conformers = .omitted) :
    (mols.all (fun m => m.length = n) = false →
      validateMol chem r = .error (.validation [.geometryMismatch geomMismatchMsg])) ∧
    (mols.all (fun m => m.length = n) = true →
      validateMol chem r = .ok ⟨s, c, s, some 1, none, some mols, none, none, 1⟩) := by
  constructor <;> intro hall <;>
    simp [validateMol, validateSmile, validateCount, validateName,
      validateChargeScaling, validateForceField, validateGeometries,
      validatePartialCharges, validateLabel, validateMaxConformers,
      fieldValues, errOf, getOr, hs, hn, hc, hname, hsc, hff, hg, hres, hall,
      hpc, hlbl, hmc]

/-- C4 (witness): both branches of the amended claim at concrete inputs — a
2-position geometry for the 3-atom identity `"O"` is rejected, a 3-position
one is accepted. -/
theorem geometry_atom_count_check_w :
    validateMol chemEx { rawBase with geometries := .val ["g2"] } =
      .error (.validation [.geometryMismatch geomMismatchMsg]) ∧
    validateMol chemEx { rawBase with geometries := .val ["g3"] } =
      .ok ⟨"O", 2, "O", some 1, none, some [mol3], none, none, 1⟩ :=
  ⟨(geometry_atom_count_check chemEx _ "O" 3 2 ["g2"] [mol2]
      rfl rfl rfl rfl rfl rfl rfl (by decide) rfl rfl rfl).1 (by decide),
   (geometry_atom_count_check chemEx _ "O" 3 2 ["g3"] [mol3]
      rfl rfl rfl rfl rfl rfl rfl (by decide) rfl rfl rfl).2 (by decide)⟩

/-- C5: with the earlier fields valid, a raw specification that supplies
partial charges while the geometries field is absent (omitted, or supplied as
null — both leave `values["geometries"]` as `None`) fails with the
missing-geometry error. -/
theorem partial_charges_require_geometries (chem : Chem) (r : RawMoleculeSpec)
    (s : String) (n : Nat) (c : Int) (cs : List ℚ)
    (hs : r.smile = .val s) (hn : chem.parseSmiles s = some n)
    (hc : r.count = .val c) (hname : r.name = .omitted)
    (hsc : r.charge_scaling = .omitted) (hff : r.force_field = .omitted)
    (hg : r.geometries = .omitted ∨ r.geometries = .null)
    (hpc : r.partial_charges = .val cs)
    (hlbl : r.partial_charge_label = .omitted)
    (hmc : r.max_conformers = .omitted) :
    validateMol chem r = .error (.validation [.missingGeometry missingGeomMsg]) := by
  rcases hg with hg | hg <;>
    simp [validateMol, validateSmile, validateCount, validateName,
      validateChargeScaling, validateForceField, validateGeometries,
      validatePartialCharges, validateLabel, validateMaxConformers,
      fieldValues, errOf, getOr, hs, hn, hc, hname, hsc, hff, hg, hpc, hlbl, hmc]

/-- C5 (witness): the claim at a concrete input — two charges supplied with
no geometries. -/
theorem partial_charges_require_geometries_w :
    validateMol chemEx { rawBase with partial_charges := .val [mkRat 1 10, mkRat 1 5] } =
      .error (.validation [.missingGeometry missingGeomMsg]) :=
  partial_charges_require_geometries chemEx _ "O" 3 2 [mkRat 1 10, mkRat 1 5]
    rfl rfl rfl rfl rfl rfl (Or.inl rfl) rfl rfl rfl

/-- C6: with the earlier fields valid, both partial charges and (matching)
geometries present, validation fails with the length-mismatch error exactly
when the charge list's length differs from the atom count of the first
resolved geometry. -/
theorem partial_charges_length_check (chem : Chem) (r : RawMoleculeSpec)
    (s : String) (n : Nat) (c : Int) (srcs : List GeomSource)
    (g0 : Molecule) (rest : List Molecule) (cs : List ℚ)
    (hs : r.smile = .val s) (hn : chem.parseSmiles s = some n)
    (hc : r.count = .val c) (hname : r.name = .omitted)
    (hsc : r.charge_scaling = .omitted) (hff : r.force_field = .omitted)
    (hg : r.geometries = .val srcs)
    (hres : resolveAll chem srcs = .ok (g0 :: rest))
    (hall : (g0 :: rest).all (fun m => m.length = n) = true)
    (hpc : r.partial_charges = .val cs)
    (hlbl : r.partial_charge_label = .omitted)
    (hmc : r.max_conformers = .omitted) :
    validateMol chem r = .error (.validation [.lengthMismatch lengthMismatchMsg])
      ↔ cs.length ≠ g0.length := by
  by_cases hlen : cs.length = g0.length <;>
    simp [validateMol, validateSmile, validateCount, validateName,
      validateChargeScaling, validateForceField, validateGeometries,
      validatePartialCharges, validateLabel, validateMaxConformers,
      fieldValues, errOf, getOr, hs, hn, hc, hname, hsc, hff, hg, hres, hall,
      hpc, hlbl, hmc, hlen]

/-- C6 (witness): the claim at a concrete input — a 3-position geometry with
2 charges is rejected with the length-mismatch error. -/
theorem partial_charges_length_check_w :
    validateMol chemEx
        { rawBase with geometries := .val ["g3"],
                       partial_charges := .val [mkRat 1 10, mkRat 1 5] } =
      .error (.validation [.lengthMismatch lengthMismatchMsg]) :=
  (partial_charges_length_check chemEx _ "O" 3 2 ["g3"] mol3 [] [mkRat 1 10, mkRat 1 5]
      rfl rfl rfl rfl rfl rfl rfl (by decide) (by decide) rfl rfl rfl).mpr (by decide)

/-- C7: the force-field step never rejects a supplied keyword (it lowercases
any string), and with the other fields valid, validation succeeds with the
lowercased keyword when the field is supplied and with no force field
assigned when it is omitted. -/
theorem force_field_lowercased (chem : Chem) (r : RawMoleculeSpec)
    (s : String) (n : Nat) (c : Int)
    (hs : r.smile = .val s) (hn : chem.parseSmiles s = some n)
    (hc : r.count = .val c) (hname : r.name = .omitted)
    (hsc : r.charge_scaling = .omitted) (hg : r.geometries = .omitted)
    (hpc : r.partial_charges = .omitted)
    (hlbl : r.partial_charge_label = .omitted)
    (hmc : r.max_conformers = .omitted) :
    (∀ f : String, validateForceField (.val f) = .ok (.ok (some (pyLower f)))) ∧
    (∀ f : String, r.force_field = .val f →
      validateMol chem r = .ok ⟨s, c, s, some 1, some (pyLower f), none, none, none, 1⟩) ∧
    (r.force_field = .omitted →
      validateMol chem r = .ok ⟨s, c, s, some 1, none, none, none, none, 1⟩) := by
  refine ⟨fun f => rfl, ?_, ?_⟩
  · intro f hff
    simp [validateMol, validateSmile, validateCount, validateName,
      validateChargeScaling, validateForceField, validateGeometries,
      validatePartialCharges, validateLabel, validateMaxConformers,
      fieldValues, errOf, getOr, hs, hn, hc, hname, hsc, hff, hg, hpc, hlbl, hmc]
  · intro hff
    simp [validateMol, validateSmile, validateCount, validateName,
      validateChargeScaling, validateForceField, validateGeometries,
      validatePartialCharges, validateLabel, validateMaxConformers,
      fieldValues, errOf, getOr, hs, hn, hc, hname, hsc, hff, hg, hpc, hlbl, hmc]

/-- C7 (witness): the claim at a concrete input — force field `"TIP3P"`
canonicalizes to `"tip3p"`, and omitting the field leaves none assigned. -/
theorem force_field_lowercased_w :
    validateMol chemEx { rawBase with force_field := .val "TIP3P" } =
      .ok ⟨"O", 2, "O", some 1, some "tip3p", none, none, none, 1⟩ ∧
    validateMol chemEx rawBase =
      .ok ⟨"O", 2, "O", some 1, none, none, none, none, 1⟩ :=
  ⟨(force_field_lowercased chemEx _ "O" 3 2
      rfl rfl rfl rfl rfl rfl rfl rfl rfl).2.1 "TIP3P" rfl,
   (force_field_lowercased chemEx _ "O" 3 2
      rfl rfl rfl rfl rfl rfl rfl rfl rfl).2.2 rfl⟩

/-- C8: the name-defaulting step is a pure derivation that never produces a
validation error once the identity validated, and with a parseable identity
and no name supplied, validation succeeds with the canonical name equal to
the identity string. -/
theorem set_name_defaults_to_smile (chem : Chem) (r : RawMoleculeSpec)
    (s : String) (n : Nat) (c : Int)
    (hs : r.smile = .val s) (hn : chem.parseSmiles s = some n)
    (hc : r.count = .val c) (hname : r.name = .omitted)
    (hsc : r.charge_scaling = .omitted) (hff : r.force_field = .omitted)
    (hg : r.geometries = .omitted) (hpc : r.partial_charges = .omitted)
    (hlbl : r.partial_charge_label = .omitted)
    (hmc : r.max_conformers = .omitted) :
    validateMol chem r = .ok ⟨s, c, s, some 1, none, none, none, none, 1⟩ ∧
    (∀ (t : String) (f : RawField String),
      ∃ nm, validateName (.ok t) f = .ok (.ok nm)) := by
  refine ⟨?_, fun t f => ?_⟩
  · simp [validateMol, validateSmile, validateCount, validateName,
      validateChargeScaling, validateForceField, validateGeometries,
      validatePartialCharges, validateLabel, validateMaxConformers,
      fieldValues, errOf, getOr, hs, hn, hc, hname, hsc, hff, hg, hpc, hlbl, hmc]
  · cases f <;> exact ⟨_, rfl⟩

/-- C8 (witness): the claim at a concrete input — identity `"O"`, no name
supplied, validates to canonical name `"O"`. -/
theorem set_name_defaults_to_smile_w :
    validateMol chemEx rawBase = .ok ⟨"O", 2, "O", some 1, none, none, none, none, 1⟩ :=
  (set_name_defaults_to_smile chemEx _ "O" 3 2
    rfl rfl rfl rfl rfl rfl rfl rfl rfl rfl).1

/-- Flattening `k` repetitions of a block yields `k` times its length. -/
theorem length_flatten_replicate (k : Nat) (l : List Int) :
    ((List.replicate k l).flatten).length = k * l.length := by
  induction k with
  | zero => simp
  | succ k ih => simp [List.replicate_succ, ih, Nat.succ_mul, Nat.add_comm]

/-- C9: aggregation produces flat per-atom arrays whose length is the sum
over specifications of population count times atoms per molecule, laid out as
contiguous per-specification blocks each repeated `count` times in input
order; in particular spec A (count 2, 3 atoms) followed by spec B (count 3,
1 atom) yields the 9-element layout [A-block ×2][B-block ×3]. -/
theorem aggregate_flat_layout :
    (∀ specs : List MoleculeSpec,
      (aggregate specs).atom_types.length
        = (specs.map (fun sp => sp.count * sp.atomTypes.length)).sum) ∧
    (∀ (sp : MoleculeSpec) (rest : List MoleculeSpec),
      (aggregate (sp :: rest)).atom_types
        = (List.replicate sp.count sp.atomTypes).flatten ++ (aggregate rest).atom_types) ∧
    (aggregate [specA, specB]).atom_types = [1, 2, 3, 1, 2, 3, 7, 7, 7] ∧
    (aggregate [specA, specB]).atom_types.length = 2 * 3 + 3 * 1 := by
  refine ⟨?_, ?_, by decide, by decide⟩
  · intro specs
    induction specs with
    | nil => simp [aggregate]
    | cons sp rest ih =>
      simp [aggregate, length_flatten_replicate] at ih ⊢
      exact ih
  · intro sp rest
    simp [aggregate]

/-- C10: omitting an optional field and supplying it as null differ at the
interface: whenever validation succeeds with `force_field` (respectively
`partial_charges`) omitted the field is simply unset in the result, and the
baseline raw specification validates; but supplying null for `force_field`
makes the pre-validator call `.lower()` on it, an uncaught AttributeError,
and supplying null for `partial_charges` makes the pre-validator call
`list(None)`, a TypeError reported as a framework error that is not one of
the documented validation errors. -/
theorem omitted_vs_null_asymmetry :
    (∀ (chem : Chem) (r : RawMoleculeSpec) (m : InputMoleculeSpec),
      validateMol chem r = .ok m → r.force_field = .omitted → m.force_field = none) ∧
    (∀ (chem : Chem) (r : RawMoleculeSpec) (m : InputMoleculeSpec),
      validateMol chem r = .ok m → r.partial_charges = .omitted → m.partial_charges = none) ∧
    validateMol chemEx rawBase = .ok ⟨"O", 2, "O", some 1, none, none, none, none, 1⟩ ∧
    validateMol chemEx { rawBase with force_field := .null } =
      .error (.uncaught "AttributeError: NoneType object has no attribute lower") ∧
    validateMol chemEx { rawBase with partial_charges := .null } =
      .error (.validation [.typeError "partial_charges" "NoneType object is not iterable"]) ∧
    documentedKind (.typeError "partial_charges" "NoneType object is not iterable") = false := by
  refine ⟨?_, ?_, by decide, by decide, by decide, rfl⟩
  · intro chem r m h hff
    simp only [validateMol, hff, validateForceField] at h
    split at h
    · exact Except.noConfusion h
    split at h
    · exact Except.noConfusion h
    split at h
    · exact Except.noConfusion h
    split at h
    · injection h with h
      subst h
      rfl
    · exact Except.noConfusion h
  · intro chem r m h hpc
    simp only [validateMol, hpc, validatePartialCharges] at h
    split at h
    · exact Except.noConfusion h
    split at h
    · exact Except.noConfusion h
    split at h
    · exact Except.noConfusion h
    split at h
    · injection h with h
      subst h
      rfl
    · exact Except.noConfusion h

/-- C10 (witness): the universal conjuncts at a concrete input — the
validated baseline specification has no force field and no partial charges
assigned. -/
theorem omitted_vs_null_asymmetry_w :
    (⟨"O", 2, "O", some 1, none, none, none, none, 1⟩ : InputMoleculeSpec).force_field = none ∧
    (⟨"O", 2, "O", some 1, none, none, none, none, 1⟩ : InputMoleculeSpec).partial_charges = none :=
  ⟨omitted_vs_null_asymmetry.1 chemEx rawBase _ rfl rfl,
   omitted_vs_null_asymmetry.2.1 chemEx rawBase _ rfl rfl⟩
